import Mathlib

/-!
Verification of the MCP Rust SDK protocol layer (`src/protocol/{types,messages,validation}.rs`).

This development shallowly embeds the protocol data model and the validation
functions of the repository and proves the specification claims about them.
JSON values are modelled by an inductive `Json` type; JSON numbers are modelled
as rationals (JSON has no NaN/infinity literals, and every serde_json number is
a rational); Rust `Option<T>` becomes `Option`, fallible functions returning
`McpResult<T>` become `Except McpError T`; Rust strings become `String`, with
character-level helpers mirroring `str::is_empty`, `str::starts_with` and
`str::contains`.
-/

set_option maxRecDepth 10000

/-- JSON values, as in `serde_json::Value`.  Objects are association lists;
`serde_json` maps have unique keys and lookup finds the unique binding, which
the first-match lookup below reproduces. -/
inductive Json : Type where
  | null : Json
  | bool : Bool → Json
  | num : ℚ → Json
  | str : String → Json
  | arr : List Json → Json
  | obj : List (String × Json) → Json

/-- `Map::get` on a JSON object: first binding with the given key. -/
def lookupField : List (String × Json) → String → Option Json
  | [], _ => none
  | (k, v) :: rest, key => if k == key then some v else lookupField rest key

/-- `Map::contains_key` on a JSON object. -/
def hasField (fields : List (String × Json)) (key : String) : Bool :=
  (lookupField fields key).isSome

/-- `Value::as_str`. -/
def Json.as_str : Json → Option String
  | .str s => some s
  | _ => none

/-- `Value::is_object`. -/
def Json.is_object : Json → Bool
  | .obj _ => true
  | _ => false

/-- `Value::is_null`. -/
def Json.is_null : Json → Bool
  | .null => true
  | _ => false

/-- Rust `str::is_empty`. -/
def strIsEmpty (s : String) : Bool :=
  s.data.isEmpty

/-- Prefix test on character lists, the model of Rust `str::starts_with`. -/
def charsStart : List Char → List Char → Bool
  | _, [] => true
  | [], _ :: _ => false
  | c :: cs, d :: ds => c == d && charsStart cs ds

/-- Rust `str::starts_with` with a string pattern. -/
def strStarts (s pat : String) : Bool :=
  charsStart s.data pat.data

/-- Rust `str::contains` with a `char` pattern. -/
def strContainsChar (s : String) (c : Char) : Bool :=
  s.data.contains c

/-- Substring search on character lists. -/
def charsContain : List Char → List Char → Bool
  | _, [] => true
  | [], _ :: _ => false
  | c :: cs, pat => charsStart (c :: cs) pat || charsContain cs pat

/-- Rust `str::contains` with a string pattern. -/
def strContainsSub (s pat : String) : Bool :=
  charsContain s.data pat.data

/-- `McpError` (from `src/core/error.rs`, whose text is not in this snapshot);
only the `Validation` variant is used by the validation module. -/
inductive McpError : Type where
  | Validation : String → McpError
deriving DecidableEq

/-- `McpResult<T>`. -/
abbrev McpResult (α : Type) : Type := Except McpError α

/-! ## JSON-RPC types (`src/protocol/types.rs`) -/

/-- `JsonRpcError`. -/
structure JsonRpcError : Type where
  code : Int
  message : String
  data : Option Json

/-- `JsonRpcRequest`. -/
structure JsonRpcRequest : Type where
  jsonrpc : String
  id : Json
  method : String
  params : Option Json

/-- `JsonRpcResponse`. -/
structure JsonRpcResponse : Type where
  jsonrpc : String
  id : Json
  result : Option Json
  error : Option JsonRpcError

/-- `JsonRpcNotification`. -/
structure JsonRpcNotification : Type where
  jsonrpc : String
  method : String
  params : Option Json

/-- `PARSE_ERROR`: invalid JSON was received. -/
def PARSE_ERROR : Int := -32700
/-- `INVALID_REQUEST`: the JSON sent is not a valid Request object. -/
def INVALID_REQUEST : Int := -32600
/-- `METHOD_NOT_FOUND`: the method does not exist / is not available. -/
def METHOD_NOT_FOUND : Int := -32601
/-- `INVALID_PARAMS`: invalid method parameter(s). -/
def INVALID_PARAMS : Int := -32602
/-- `INTERNAL_ERROR`: internal JSON-RPC error. -/
def INTERNAL_ERROR : Int := -32603
/-- `TOOL_NOT_FOUND`: tool not found. -/
def TOOL_NOT_FOUND : Int := -32000
/-- `RESOURCE_NOT_FOUND`: resource not found. -/
def RESOURCE_NOT_FOUND : Int := -32001
/-- `PROMPT_NOT_FOUND`: prompt not found. -/
def PROMPT_NOT_FOUND : Int := -32002

/-- `JsonRpcResponse::success`.  In Rust the result value is serialized with
`serde_json::to_value`; here the already-JSON result is taken directly. -/
def JsonRpcResponse.success (id : Json) (result : Json) : JsonRpcResponse :=
  { jsonrpc := "2.0", id := id, result := some result, error := none }

/-- `JsonRpcResponse::error` (named `mkError` here because the structure already
has a field called `error`). -/
def JsonRpcResponse.mkError (id : Json) (code : Int) (message : String)
    (data : Option Json) : JsonRpcResponse :=
  { jsonrpc := "2.0", id := id, result := none,
    error := some { code := code, message := message, data := data } }

/-! ## MCP message types (`src/protocol/messages.rs`) -/

/-- `ClientInfo`. -/
structure ClientInfo : Type where
  name : String
  version : String

/-- `SamplingCapability` (empty struct). -/
structure SamplingCapability : Type where

/-- `ClientCapabilities`. -/
structure ClientCapabilities : Type where
  sampling : Option SamplingCapability

/-- `InitializeParams`; serde renames: `clientInfo`, `protocolVersion`. -/
structure InitializeParams : Type where
  client_info : ClientInfo
  capabilities : ClientCapabilities
  protocol_version : String

/-- `CallToolParams`; `arguments` is a `HashMap<String, Value>`, modelled by
its list of entries. -/
structure CallToolParams : Type where
  name : String
  arguments : Option (List (String × Json))

/-- `ReadResourceParams`. -/
structure ReadResourceParams : Type where
  uri : String

/-- `GetPromptParams`. -/
structure GetPromptParams : Type where
  name : String
  arguments : Option (List (String × Json))

/-- `Content` (`src/protocol/types.rs`), tagged by `type`. -/
inductive Content : Type where
  | Text : (text : String) → Content
  | Image : (data : String) → (mime_type : String) → Content

/-- `ResourceContent` (`src/protocol/types.rs`). -/
structure ResourceContent : Type where
  uri : String
  mime_type : Option String
  text : Option String
  blob : Option String

/-- `SamplingContent`, an untagged enum. -/
inductive SamplingContent : Type where
  | Text : String → SamplingContent
  | Complex : List Content → SamplingContent

/-- `SamplingMessage`. -/
structure SamplingMessage : Type where
  role : String
  content : SamplingContent

/-- `ModelPreferences`; `f32` priorities modelled as rationals. -/
structure ModelPreferences : Type where
  cost_priority : Option ℚ
  speed_priority : Option ℚ
  quality_priority : Option ℚ

/-- `CreateMessageParams`; `f32` fields modelled as rationals, `u32` as `Nat`. -/
structure CreateMessageParams : Type where
  messages : List SamplingMessage
  model_preferences : Option ModelPreferences
  system_prompt : Option String
  include_context : Option String
  max_tokens : Option Nat
  temperature : Option ℚ
  top_p : Option ℚ
  stop_sequences : Option (List String)
  metadata : Option (List (String × Json))

/-- `LoggingLevel`. -/
inductive LoggingLevel : Type where
  | Debug | Info | Notice | Warning | Error | Critical | Alert | Emergency
deriving DecidableEq

/-- `LoggingMessageParams`. -/
structure LoggingMessageParams : Type where
  level : LoggingLevel
  logger : Option String
  data : Json

/-- `ProgressParams`; `progress: f32` modelled as a rational, `total: u32` as `Nat`. -/
structure ProgressParams : Type where
  progress_token : String
  progress : ℚ
  total : Option Nat

/-! Method name constants (`pub mod methods` in `src/protocol/messages.rs`). -/

namespace methods

def INITIALIZE : String := "initialize"

def PING : String := "ping"

def TOOLS_LIST : String := "tools/list"

def TOOLS_CALL : String := "tools/call"

def TOOLS_LIST_CHANGED : String := "tools/list_changed"

def RESOURCES_LIST : String := "resources/list"

def RESOURCES_READ : String := "resources/read"

def RESOURCES_SUBSCRIBE : String := "resources/subscribe"

def RESOURCES_UNSUBSCRIBE : String := "resources/unsubscribe"

def RESOURCES_UPDATED : String := "resources/updated"

def RESOURCES_LIST_CHANGED : String := "resources/list_changed"

def PROMPTS_LIST : String := "prompts/list"

def PROMPTS_GET : String := "prompts/get"

def PROMPTS_LIST_CHANGED : String := "prompts/list_changed"

def SAMPLING_CREATE_MESSAGE : String := "sampling/createMessage"

def LOGGING_SET_LEVEL : String := "logging/setLevel"

def LOGGING_MESSAGE : String := "logging/message"

def PROGRESS : String := "progress"

end methods

/-! ## Validation functions (`src/protocol/validation.rs`) -/

/-- `validate_jsonrpc_message`: checks that a JSON value is a well-formed
JSON-RPC 2.0 message (request/notification or response). -/
def validate_jsonrpc_message (message : Json) : McpResult Unit :=
  match message with
  | Json.obj fields =>
    match (lookupField fields "jsonrpc").bind Json.as_str with
    | none => .error (.Validation "Missing or invalid \x27jsonrpc\x27 field")
    | some jsonrpc =>
      if jsonrpc ≠ "2.0" then .error (.Validation "jsonrpc must be \x272.0\x27")
      else
        if hasField fields "method" then
          if hasField fields "result" || hasField fields "error" then
            .error (.Validation
              "Request/notification cannot have \x27result\x27 or \x27error\x27 fields")
          else .ok ()
        else if hasField fields "result" || hasField fields "error" then
          if !hasField fields "id" then
            .error (.Validation "Response must have an \x27id\x27 field")
          else if hasField fields "result" && hasField fields "error" then
            .error (.Validation
              "Response cannot have both \x27result\x27 and \x27error\x27 fields")
          else .ok ()
        else
          .error (.Validation "Message must be a request, response, or notification")
  | _ => .error (.Validation "Message must be a JSON object")

/-- `validate_jsonrpc_request`. -/
def validate_jsonrpc_request (request : JsonRpcRequest) : McpResult Unit :=
  if request.jsonrpc ≠ "2.0" then .error (.Validation "jsonrpc must be \x272.0\x27")
  else if strIsEmpty request.method then
    .error (.Validation "Method name cannot be empty")
  else if strStarts request.method "rpc." && !strStarts request.method "rpc.discover" then
    .error (.Validation "Method names starting with \x27rpc.\x27 are reserved")
  else .ok ()

/-- `validate_jsonrpc_response`. -/
def validate_jsonrpc_response (response : JsonRpcResponse) : McpResult Unit :=
  if response.jsonrpc ≠ "2.0" then .error (.Validation "jsonrpc must be \x272.0\x27")
  else
    match response.result, response.error with
    | some _, some _ => .error (.Validation "Response cannot have both result and error")
    | none, none => .error (.Validation "Response must have either result or error")
    | _, _ => .ok ()

/-- `validate_jsonrpc_notification`. -/
def validate_jsonrpc_notification (notification : JsonRpcNotification) : McpResult Unit :=
  if notification.jsonrpc ≠ "2.0" then .error (.Validation "jsonrpc must be \x272.0\x27")
  else if strIsEmpty notification.method then
    .error (.Validation "Method name cannot be empty")
  else .ok ()

/-- `validate_initialize_params`. -/
def validate_initialize_params (params : InitializeParams) : McpResult Unit :=
  if strIsEmpty params.client_info.name then
    .error (.Validation "Client name cannot be empty")
  else if strIsEmpty params.client_info.version then
    .error (.Validation "Client version cannot be empty")
  else if strIsEmpty params.protocol_version then
    .error (.Validation "Protocol version cannot be empty")
  else .ok ()

/-- `validate_call_tool_params`. -/
def validate_call_tool_params (params : CallToolParams) : McpResult Unit :=
  if strIsEmpty params.name then
    .error (.Validation "Tool name cannot be empty")
  else .ok ()

/-- `validate_uri`. -/
def validate_uri (uri : String) : McpResult Unit :=
  if strIsEmpty uri then .error (.Validation "URI cannot be empty")
  else if !strContainsSub uri "://" && !strStarts uri "/" && !strStarts uri "file:" then
    .error (.Validation "URI must have a scheme or be an absolute path")
  else .ok ()

/-- `validate_read_resource_params`. -/
def validate_read_resource_params (params : ReadResourceParams) : McpResult Unit :=
  if strIsEmpty params.uri then
    .error (.Validation "Resource URI cannot be empty")
  else
    match validate_uri params.uri with
    | .error e => .error e
    | .ok () => .ok ()

/-- `validate_resource_content`. -/
def validate_resource_content (content : ResourceContent) : McpResult Unit :=
  if strIsEmpty content.uri then
    .error (.Validation "Resource content URI cannot be empty")
  else
    match content.text, content.blob with
    | some _, some _ =>
      .error (.Validation "Resource content cannot have both text and blob")
    | none, none =>
      .error (.Validation "Resource content must have either text or blob")
    | _, _ => .ok ()

/-- `validate_get_prompt_params`. -/
def validate_get_prompt_params (params : GetPromptParams) : McpResult Unit :=
  if strIsEmpty params.name then
    .error (.Validation "Prompt name cannot be empty")
  else .ok ()

/-- The `for message in messages` loop of `validate_sampling_messages`. -/
def checkSamplingRoles : List SamplingMessage → McpResult Unit
  | [] => .ok ()
  | message :: rest =>
    if strIsEmpty message.role then
      .error (.Validation "Message role cannot be empty")
    else checkSamplingRoles rest

/-- `validate_sampling_messages`. -/
def validate_sampling_messages (messages : List SamplingMessage) : McpResult Unit :=
  if messages.isEmpty then
    .error (.Validation "Sampling request must have at least one message")
  else checkSamplingRoles messages

/-- The final `max_tokens` check of `validate_create_message_params`. -/
def validateMaxTokens (params : CreateMessageParams) : McpResult Unit :=
  match params.max_tokens with
  | some mt =>
    if mt = 0 then
      .error (.Validation "max_tokens must be greater than 0")
    else .ok ()
  | none => .ok ()

/-- The `top_p` check of `validate_create_message_params`, followed by the
`max_tokens` check. -/
def validateTopPAndMaxTokens (params : CreateMessageParams) : McpResult Unit :=
  match params.top_p with
  | some tp =>
    if ¬(0 ≤ tp ∧ tp ≤ 1) then
      .error (.Validation "top_p must be between 0.0 and 1.0")
    else validateMaxTokens params
  | none => validateMaxTokens params

/-- `validate_create_message_params`: messages check, then the `temperature`,
`top_p` and `max_tokens` range checks in order. -/
def validate_create_message_params (params : CreateMessageParams) : McpResult Unit :=
  match validate_sampling_messages params.messages with
  | .error e => .error e
  | .ok () =>
    match params.temperature with
    | some temp =>
      if ¬(0 ≤ temp ∧ temp ≤ 2) then
        .error (.Validation "Temperature must be between 0.0 and 2.0")
      else validateTopPAndMaxTokens params
    | none => validateTopPAndMaxTokens params

/-- The 18 catalog method names matched by `validate_method_name`. -/
def isCatalogMethod (method : String) : Bool :=
  method == methods.INITIALIZE ||
  method == methods.PING ||
  method == methods.TOOLS_LIST ||
  method == methods.TOOLS_CALL ||
  method == methods.TOOLS_LIST_CHANGED ||
  method == methods.RESOURCES_LIST ||
  method == methods.RESOURCES_READ ||
  method == methods.RESOURCES_SUBSCRIBE ||
  method == methods.RESOURCES_UNSUBSCRIBE ||
  method == methods.RESOURCES_UPDATED ||
  method == methods.RESOURCES_LIST_CHANGED ||
  method == methods.PROMPTS_LIST ||
  method == methods.PROMPTS_GET ||
  method == methods.PROMPTS_LIST_CHANGED ||
  method == methods.SAMPLING_CREATE_MESSAGE ||
  method == methods.LOGGING_SET_LEVEL ||
  method == methods.LOGGING_MESSAGE ||
  method == methods.PROGRESS

/-- `validate_method_name`. -/
def validate_method_name (method : String) : McpResult Unit :=
  if strIsEmpty method then
    .error (.Validation "Method name cannot be empty")
  else if isCatalogMethod method then .ok ()
  else if strContainsChar method '/' || strContainsChar method '.' then .ok ()
  else .error (.Validation ("Unknown or invalid method name: " ++ method))

/-- `validate_progress_params`. -/
def validate_progress_params (params : ProgressParams) : McpResult Unit :=
  if strIsEmpty params.progress_token then
    .error (.Validation "Progress token cannot be empty")
  else if ¬(0 ≤ params.progress ∧ params.progress ≤ 1) then
    .error (.Validation "Progress must be between 0.0 and 1.0")
  else .ok ()

/-- `validate_logging_message_params`. -/
def validate_logging_message_params (params : LoggingMessageParams) : McpResult Unit :=
  if params.data.is_null then
    .error (.Validation "Log message data cannot be null")
  else .ok ()

/-! ## Serialization model and dispatcher fragment -/

/-- serde `Serialize` for `JsonRpcRequest`: one JSON object member per field,
in declaration order; `params` is omitted when `None` (`skip_serializing_if`).
The struct has an unconditional `id` field. -/
def JsonRpcRequest.toJson (r : JsonRpcRequest) : Json :=
  Json.obj ([("jsonrpc", Json.str r.jsonrpc), ("id", r.id),
    ("method", Json.str r.method)] ++
    (match r.params with | some p => [("params", p)] | none => []))

/-- serde `Serialize` for `JsonRpcNotification`: the struct has no `id` field,
so its serialization never contains one; `params` omitted when `None`. -/
def JsonRpcNotification.toJson (n : JsonRpcNotification) : Json :=
  Json.obj ([("jsonrpc", Json.str n.jsonrpc), ("method", Json.str n.method)] ++
    (match n.params with | some p => [("params", p)] | none => []))

/-- Whether a serialized JSON value is an object containing the given member. -/
def jsonHasMember (j : Json) (key : String) : Bool :=
  match j with
  | Json.obj fields => hasField fields key
  | _ => false

/-- Modelled from the spec: the request dispatcher (`src/server/mcp_server.rs`
and `src/server/handlers.rs`, declared in `src/server/mod.rs` but whose text is
not part of this snapshot) answers a `tools/call` request naming a tool absent
from the registry with a JSON-RPC error response carrying the tool-not-found
code. -/
def dispatchToolsCallUnknownTool (id : Json) (name : String) : JsonRpcResponse :=
  JsonRpcResponse.mkError id TOOL_NOT_FOUND ("Tool not found: " ++ name) none

/-! ## Claim theorems -/

/-- C2: the error-code constants used to answer requests have exactly the
values of the spec: parse error -32700, invalid request -32600, method not
found -32601, invalid params -32602, internal error -32603, tool not found
-32000, resource not found -32001, prompt not found -32002; in particular a
`tools/call` naming an unregistered tool is answered with code -32000. -/
theorem C2_error_code_constants :
    PARSE_ERROR = -32700 ∧ INVALID_REQUEST = -32600 ∧ METHOD_NOT_FOUND = -32601 ∧
    INVALID_PARAMS = -32602 ∧ INTERNAL_ERROR = -32603 ∧ TOOL_NOT_FOUND = -32000 ∧
    RESOURCE_NOT_FOUND = -32001 ∧ PROMPT_NOT_FOUND = -32002 ∧
    ∀ (id : Json) (name : String),
      (dispatchToolsCallUnknownTool id name).error.map JsonRpcError.code =
        some (-32000) :=
  ⟨rfl, rfl, rfl, rfl, rfl, rfl, rfl, rfl, fun _ _ => rfl⟩

/-- C6: the method-name constants defined for dispatch equal, string for
string, the catalog of section 6 of the spec. -/
theorem C6_method_name_constants :
    methods.INITIALIZE = "initialize" ∧
    methods.PING = "ping" ∧
    methods.TOOLS_LIST = "tools/list" ∧
    methods.TOOLS_CALL = "tools/call" ∧
    methods.TOOLS_LIST_CHANGED = "tools/list_changed" ∧
    methods.RESOURCES_LIST = "resources/list" ∧
    methods.RESOURCES_READ = "resources/read" ∧
    methods.RESOURCES_SUBSCRIBE = "resources/subscribe" ∧
    methods.RESOURCES_UNSUBSCRIBE = "resources/unsubscribe" ∧
    methods.RESOURCES_UPDATED = "resources/updated" ∧
    methods.RESOURCES_LIST_CHANGED = "resources/list_changed" ∧
    methods.PROMPTS_LIST = "prompts/list" ∧
    methods.PROMPTS_GET = "prompts/get" ∧
    methods.PROMPTS_LIST_CHANGED = "prompts/list_changed" ∧
    methods.SAMPLING_CREATE_MESSAGE = "sampling/createMessage" ∧
    methods.LOGGING_SET_LEVEL = "logging/setLevel" ∧
    methods.LOGGING_MESSAGE = "logging/message" ∧
    methods.PROGRESS = "progress" :=
  ⟨rfl, rfl, rfl, rfl, rfl, rfl, rfl, rfl, rfl, rfl, rfl, rfl, rfl, rfl, rfl,
    rfl, rfl, rfl⟩

/-- C5: every response built by `JsonRpcResponse::success` or
`JsonRpcResponse::error` has jsonrpc "2.0" and exactly one of `result` and
`error` set (success sets `result`, error sets `error`), every such response is
accepted by `validate_jsonrpc_response`, and `validate_jsonrpc_response`
rejects any response carrying both or neither. -/
theorem C5_response_exactly_one_of_result_error :
    (∀ (id r : Json),
      (JsonRpcResponse.success id r).jsonrpc = "2.0" ∧
      (JsonRpcResponse.success id r).result = some r ∧
      (JsonRpcResponse.success id r).error = none ∧
      validate_jsonrpc_response (JsonRpcResponse.success id r) = Except.ok ()) ∧
    (∀ (id : Json) (code : Int) (message : String) (data : Option Json),
      (JsonRpcResponse.mkError id code message data).jsonrpc = "2.0" ∧
      (JsonRpcResponse.mkError id code message data).result = none ∧
      (JsonRpcResponse.mkError id code message data).error =
        some { code := code, message := message, data := data } ∧
      validate_jsonrpc_response (JsonRpcResponse.mkError id code message data) =
        Except.ok ()) ∧
    (∀ response : JsonRpcResponse,
      ((response.result.isSome ∧ response.error.isSome) ∨
        (response.result = none ∧ response.error = none)) →
      validate_jsonrpc_response response ≠ Except.ok ()) := by
  refine ⟨fun id r => ⟨rfl, rfl, rfl, ?_⟩,
    fun id code message data => ⟨rfl, rfl, rfl, ?_⟩, fun response h => ?_⟩
  · simp [validate_jsonrpc_response, JsonRpcResponse.success]
  · simp [validate_jsonrpc_response, JsonRpcResponse.mkError]
  · unfold validate_jsonrpc_response
    split
    · simp
    · rcases h with ⟨h1, h2⟩ | ⟨h1, h2⟩
      · obtain ⟨v, hv⟩ := Option.isSome_iff_exists.mp h1
        obtain ⟨w, hw⟩ := Option.isSome_iff_exists.mp h2
        simp [hv, hw]
      · simp [h1, h2]

/-- Witness for C5 at a concrete input: a response with neither `result` nor
`error` is rejected. -/
theorem C5_witness :
    validate_jsonrpc_response
      { jsonrpc := "2.0", id := Json.null, result := none, error := none } ≠
      Except.ok () :=
  C5_response_exactly_one_of_result_error.2.2 _ (Or.inr ⟨rfl, rfl⟩)

/-- C7: the serialization of every `JsonRpcNotification` contains no `id`
member, while the serialization of every `JsonRpcRequest` contains an `id`
member, so a serialized outbound message distinguishes request from
notification by the presence of `id`. -/
theorem C7_notifications_carry_no_id :
    ∀ (n : JsonRpcNotification) (r : JsonRpcRequest),
      jsonHasMember (JsonRpcNotification.toJson n) "id" = false ∧
      jsonHasMember (JsonRpcRequest.toJson r) "id" = true := by
  intro n r
  constructor
  · cases hp : n.params <;>
      simp [JsonRpcNotification.toJson, jsonHasMember, hasField, lookupField, hp]
  · cases hp : r.params <;>
      simp [JsonRpcRequest.toJson, jsonHasMember, hasField, lookupField, hp]

/-- `strIsEmpty` agrees with equality to the empty string. -/
theorem strIsEmpty_iff (s : String) : strIsEmpty s = true ↔ s = "" := by
  rw [strIsEmpty, List.isEmpty_iff]
  constructor
  · intro h
    exact String.ext h
  · intro h
    subst h
    rfl

/-- `strIsEmpty` is false exactly on non-empty strings. -/
theorem strIsEmpty_false_iff (s : String) : strIsEmpty s = false ↔ s ≠ "" := by
  rw [← Bool.not_eq_true, not_iff_not, strIsEmpty_iff]

/-- C8: `validate_resource_content` returns Ok if and only if the content uri
is non-empty and exactly one of the `text` and `blob` fields is present; both
present or both absent is a validation error. -/
theorem C8_resource_content_exactly_one :
    ∀ content : ResourceContent,
      validate_resource_content content = Except.ok () ↔
        (content.uri ≠ "" ∧
          ((content.text.isSome ∧ content.blob = none) ∨
            (content.text = none ∧ content.blob.isSome))) := by
  intro content
  unfold validate_resource_content
  cases hu : strIsEmpty content.uri
  · rcases ht : content.text with _ | v <;> rcases hb : content.blob with _ | w <;>
      simp [hu, ht, hb, (strIsEmpty_false_iff content.uri).mp hu]
  · simp [hu, (strIsEmpty_iff content.uri).mp hu]

/-- C10: `validate_jsonrpc_request` returns Ok if and only if the request's
jsonrpc field is "2.0", its method is non-empty, and the method does not start
with "rpc." unless it starts with "rpc.discover". -/
theorem C10_jsonrpc_request_ok_iff :
    ∀ request : JsonRpcRequest,
      validate_jsonrpc_request request = Except.ok () ↔
        (request.jsonrpc = "2.0" ∧ request.method ≠ "" ∧
          (strStarts request.method "rpc." = true →
            strStarts request.method "rpc.discover" = true)) := by
  intro request
  unfold validate_jsonrpc_request
  by_cases hj : request.jsonrpc = "2.0"
  · cases hm : strIsEmpty request.method
    · cases h1 : strStarts request.method "rpc." <;>
        cases h2 : strStarts request.method "rpc.discover" <;>
          simp [hj, hm, h1, h2, (strIsEmpty_false_iff request.method).mp hm]
    · simp [hj, hm, (strIsEmpty_iff request.method).mp hm]
  · simp [hj]

/-- The claim of C3, refuted below: the method "custom/method" is none of the
18 catalog methods, yet `validate_method_name` accepts it (the wildcard arm
admits any method containing a slash or a dot). -/
theorem C3_counterexample_custom_method :
    isCatalogMethod "custom/method" = false ∧
    validate_method_name "custom/method" = Except.ok () := by
  constructor <;> rfl

/-- C3 (amended): `validate_method_name` returns Ok exactly on the 18 catalog
method names and on any method name containing a slash or a dot; every other
method name (including the empty string) is rejected. -/
theorem C3_amended_method_name :
    ∀ method : String,
      validate_method_name method = Except.ok () ↔
        (isCatalogMethod method = true ∨ strContainsChar method '/' = true ∨
          strContainsChar method '.' = true) := by
  intro method
  by_cases hme : method = ""
  · subst hme
    have hv : validate_method_name "" =
        Except.error (.Validation "Method name cannot be empty") := rfl
    rw [hv]
    constructor
    · intro h
      exact Except.noConfusion h
    · intro h
      exact absurd h (by decide)
  · unfold validate_method_name
    have hm : strIsEmpty method = false := (strIsEmpty_false_iff method).mpr hme
    cases hc : isCatalogMethod method
    · cases h1 : strContainsChar method '/' <;>
        cases h2 : strContainsChar method '.' <;> simp [hm, hc, h1, h2]
    · simp [hm, hc]

/-- `checkSamplingRoles` succeeds exactly when every message role is
non-empty. -/
theorem checkSamplingRoles_ok_iff (messages : List SamplingMessage) :
    checkSamplingRoles messages = Except.ok () ↔ ∀ m ∈ messages, m.role ≠ "" := by
  induction messages with
  | nil => simp [checkSamplingRoles]
  | cons m rest ih =>
    unfold checkSamplingRoles
    cases hm : strIsEmpty m.role
    · simp [hm, ih, (strIsEmpty_false_iff m.role).mp hm]
    · simp [hm, (strIsEmpty_iff m.role).mp hm]

/-- `validateMaxTokens` succeeds exactly when `max_tokens` is absent or
nonzero. -/
theorem validateMaxTokens_ok_iff (params : CreateMessageParams) :
    validateMaxTokens params = Except.ok () ↔
      ∀ k, params.max_tokens = some k → k ≠ 0 := by
  unfold validateMaxTokens
  rcases h : params.max_tokens with _ | k
  · simp
  · by_cases hk : k = 0 <;> simp [hk]

/-- `validateTopPAndMaxTokens` succeeds exactly when `top_p` (if present) lies
in [0, 1] and `max_tokens` (if present) is nonzero. -/
theorem validateTopPAndMaxTokens_ok_iff (params : CreateMessageParams) :
    validateTopPAndMaxTokens params = Except.ok () ↔
      ((∀ p, params.top_p = some p → 0 ≤ p ∧ p ≤ 1) ∧
        ∀ k, params.max_tokens = some k → k ≠ 0) := by
  unfold validateTopPAndMaxTokens
  rcases h : params.top_p with _ | p
  · simp [validateMaxTokens_ok_iff]
  · by_cases hp : 0 ≤ p ∧ p ≤ 1
    · simp [hp, validateMaxTokens_ok_iff]
    · simp [hp]

/-- C9: `validate_create_message_params` returns Ok if and only if the
messages list is non-empty, every message role is non-empty, `temperature`
(when present) lies in [0, 2], `top_p` (when present) lies in [0, 1], and
`max_tokens` (when present) is nonzero. -/
theorem C9_create_message_params_ok_iff :
    ∀ params : CreateMessageParams,
      validate_create_message_params params = Except.ok () ↔
        (params.messages ≠ [] ∧ (∀ m ∈ params.messages, m.role ≠ "") ∧
          (∀ t, params.temperature = some t → 0 ≤ t ∧ t ≤ 2) ∧
          (∀ p, params.top_p = some p → 0 ≤ p ∧ p ≤ 1) ∧
          (∀ k, params.max_tokens = some k → k ≠ 0)) := by
  intro params
  unfold validate_create_message_params
  cases he : params.messages.isEmpty
  · have hne : params.messages ≠ [] := by
      intro h
      rw [h] at he
      simp at he
    cases hr : checkSamplingRoles params.messages with
    | error e =>
      have hbad : ¬(∀ m ∈ params.messages, m.role ≠ "") := by
        rw [← checkSamplingRoles_ok_iff, hr]
        simp
      simp [validate_sampling_messages, he, hr, hbad]
    | ok u =>
      cases u
      have hroles : ∀ m ∈ params.messages, m.role ≠ "" :=
        (checkSamplingRoles_ok_iff params.messages).mp hr
      rcases ht : params.temperature with _ | t
      · simp [validate_sampling_messages, he, hr, hne, hroles,
          validateTopPAndMaxTokens_ok_iff]
        intro _ _
        exact hroles
      · by_cases htt : 0 ≤ t ∧ t ≤ 2
        · simp [validate_sampling_messages, he, hr, hne, hroles, htt,
            validateTopPAndMaxTokens_ok_iff]
          intro _ _
          exact hroles
        · simp [validate_sampling_messages, he, hr, htt]
  · have hnil : params.messages = [] := by
      cases hl : params.messages with
      | nil => rfl
      | cons a b =>
        rw [hl] at he
        simp at he
    simp [validate_sampling_messages, he, hnil]

/-- The acceptance condition stated by claim C1, written from the claim: the
value is a JSON object whose `jsonrpc` member is the string "2.0" and which
either contains a `method` member (a request or notification, which must carry
neither `result` nor `error`), or is a response: no `method`, exactly one of
`result` and `error`, and an `id` member. -/
def messageWellFormed (m : Json) : Bool :=
  match m with
  | Json.obj fields =>
    (match lookupField fields "jsonrpc" with
      | some (Json.str s) => s == "2.0"
      | _ => false) &&
    (if hasField fields "method" then
      !hasField fields "result" && !hasField fields "error"
    else
      (hasField fields "result" != hasField fields "error") &&
        hasField fields "id")
  | _ => false

/-- C1: `validate_jsonrpc_message` accepts a JSON value if and only if it is
an object whose `jsonrpc` field is the string "2.0" and which either contains
a `method` field with neither `result` nor `error` (request/notification), or
contains exactly one of `result` and `error` together with an `id` field
(response); every other value is rejected. -/
theorem C1_jsonrpc_message_ok_iff :
    ∀ m : Json,
      validate_jsonrpc_message m = Except.ok () ↔ messageWellFormed m = true := by
  intro m
  cases m with
  | obj fields =>
    simp only [validate_jsonrpc_message, messageWellFormed]
    cases hj : lookupField fields "jsonrpc" with
    | none => simp
    | some v =>
      cases v with
      | str s =>
        simp only [Option.bind_some, Json.as_str]
        by_cases hs : s = "2.0"
        · cases hm : hasField fields "method" <;>
            cases hr : hasField fields "result" <;>
              cases he : hasField fields "error" <;>
                cases hi : hasField fields "id" <;>
                  simp [hs, hm, hr, he, hi]
        · simp [hs]
      | null => simp [Json.as_str]
      | bool b => simp [Json.as_str]
      | num q => simp [Json.as_str]
      | arr xs => simp [Json.as_str]
      | obj fs => simp [Json.as_str]
  | null => simp [validate_jsonrpc_message, messageWellFormed]
  | bool b => simp [validate_jsonrpc_message, messageWellFormed]
  | num q => simp [validate_jsonrpc_message, messageWellFormed]
  | str s => simp [validate_jsonrpc_message, messageWellFormed]
  | arr xs => simp [validate_jsonrpc_message, messageWellFormed]

/-! ## serde decoding (`serde_json::from_value`) for the typed parameter
shapes consumed by `validate_mcp_request`.  Decoders follow the derived
`Deserialize` implementations: a struct decodes from a JSON object, required
fields must be present, `Option` fields default to `None` when missing or
null, field renames follow the `serde(rename)` attributes, unknown members
are ignored. -/

/-- Decode a JSON string. -/
def decodeString : Json → Except String String
  | .str s => .ok s
  | _ => .error "invalid type: expected a string"

/-- Decode an `f32` (modelled as a rational; JSON numbers are rationals). -/
def decodeF32 : Json → Except String ℚ
  | .num q => .ok q
  | _ => .error "invalid type: expected a number"

/-- Decode a `u32`: an integral number within `u32` range. -/
def decodeU32 : Json → Except String Nat
  | .num q =>
    if q.den = 1 ∧ 0 ≤ q.num ∧ q.num ≤ 4294967295 then .ok q.num.toNat
    else .error "invalid value: expected u32"
  | _ => .error "invalid type: expected u32"

/-- A struct decodes from a JSON object. -/
def asObj : Json → Except String (List (String × Json))
  | .obj fields => .ok fields
  | _ => .error "invalid type: expected a JSON object"

/-- A required struct field. -/
def reqField (fields : List (String × Json)) (key : String) : Except String Json :=
  match lookupField fields key with
  | some v => .ok v
  | none => .error ("missing field " ++ key)

/-- An `Option` struct field: missing or null means `None`. -/
def optField (fields : List (String × Json)) (key : String)
    (dec : Json → Except String α) : Except String (Option α) :=
  match lookupField fields key with
  | none => .ok none
  | some Json.null => .ok none
  | some v => (dec v).map some

/-- Decode `ClientInfo`. -/
def decodeClientInfo (v : Json) : Except String ClientInfo := do
  let fields ← asObj v
  let name ← reqField fields "name" >>= decodeString
  let version ← reqField fields "version" >>= decodeString
  pure { name := name, version := version }

/-- Decode `SamplingCapability` (an empty struct: any JSON object). -/
def decodeSamplingCapability (v : Json) : Except String SamplingCapability := do
  let _ ← asObj v
  pure {}

/-- Decode `ClientCapabilities`. -/
def decodeClientCapabilities (v : Json) : Except String ClientCapabilities := do
  let fields ← asObj v
  let sampling ← optField fields "sampling" decodeSamplingCapability
  pure { sampling := sampling }

/-- Decode `InitializeParams`. -/
def decodeInitializeParams (v : Json) : Except String InitializeParams := do
  let fields ← asObj v
  let client_info ← reqField fields "clientInfo" >>= decodeClientInfo
  let capabilities ← reqField fields "capabilities" >>= decodeClientCapabilities
  let protocol_version ← reqField fields "protocolVersion" >>= decodeString
  pure {
    client_info := client_info,
    capabilities := capabilities,
    protocol_version := protocol_version }

/-- Decode a `HashMap<String, Value>`: any JSON object, kept as its entries. -/
def decodeArgsMap (v : Json) : Except String (List (String × Json)) :=
  asObj v

/-- Decode `CallToolParams`. -/
def decodeCallToolParams (v : Json) : Except String CallToolParams := do
  let fields ← asObj v
  let name ← reqField fields "name" >>= decodeString
  let arguments ← optField fields "arguments" decodeArgsMap
  pure { name := name, arguments := arguments }

/-- Decode `ReadResourceParams`. -/
def decodeReadResourceParams (v : Json) : Except String ReadResourceParams := do
  let fields ← asObj v
  let uri ← reqField fields "uri" >>= decodeString
  pure { uri := uri }

/-- Decode `GetPromptParams`. -/
def decodeGetPromptParams (v : Json) : Except String GetPromptParams := do
  let fields ← asObj v
  let name ← reqField fields "name" >>= decodeString
  let arguments ← optField fields "arguments" decodeArgsMap
  pure { name := name, arguments := arguments }

/-- Decode `Content` (internally tagged by `type`). -/
def decodeContent (v : Json) : Except String Content := do
  let fields ← asObj v
  let tag ← reqField fields "type" >>= decodeString
  if tag = "text" then do
    let text ← reqField fields "text" >>= decodeString
    pure (Content.Text text)
  else if tag = "image" then do
    let data ← reqField fields "data" >>= decodeString
    let mime ← reqField fields "mimeType" >>= decodeString
    pure (Content.Image data mime)
  else .error "unknown variant of tag type"

/-- Decode `SamplingContent` (untagged: a plain string, or an array of
`Content`). -/
def decodeSamplingContent (v : Json) : Except String SamplingContent :=
  match v with
  | Json.str s => .ok (SamplingContent.Text s)
  | Json.arr xs =>
    match xs.mapM decodeContent with
    | .ok cs => .ok (SamplingContent.Complex cs)
    | .error _ =>
      .error "data did not match any variant of untagged enum SamplingContent"
  | _ => .error "data did not match any variant of untagged enum SamplingContent"

/-- Decode `SamplingMessage`. -/
def decodeSamplingMessage (v : Json) : Except String SamplingMessage := do
  let fields ← asObj v
  let role ← reqField fields "role" >>= decodeString
  let content ← reqField fields "content" >>= decodeSamplingContent
  pure { role := role, content := content }

/-- Decode `Vec<SamplingMessage>`. -/
def decodeMessages (v : Json) : Except String (List SamplingMessage) :=
  match v with
  | Json.arr xs => xs.mapM decodeSamplingMessage
  | _ => .error "invalid type: expected an array"

/-- Decode `ModelPreferences`. -/
def decodeModelPreferences (v : Json) : Except String ModelPreferences := do
  let fields ← asObj v
  let cost ← optField fields "costPriority" decodeF32
  let speed ← optField fields "speedPriority" decodeF32
  let quality ← optField fields "qualityPriority" decodeF32
  pure { cost_priority := cost, speed_priority := speed, quality_priority := quality }

/-- Decode `Vec<String>`. -/
def decodeStringArray (v : Json) : Except String (List String) :=
  match v with
  | Json.arr xs => xs.mapM decodeString
  | _ => .error "invalid type: expected an array of strings"

/-- Decode `CreateMessageParams`. -/
def decodeCreateMessageParams (v : Json) : Except String CreateMessageParams := do
  let fields ← asObj v
  let messages ← reqField fields "messages" >>= decodeMessages
  let model_preferences ← optField fields "modelPreferences" decodeModelPreferences
  let system_prompt ← optField fields "systemPrompt" decodeString
  let include_context ← optField fields "includeContext" decodeString
  let max_tokens ← optField fields "maxTokens" decodeU32
  let temperature ← optField fields "temperature" decodeF32
  let top_p ← optField fields "topP" decodeF32
  let stop_sequences ← optField fields "stopSequences" decodeStringArray
  let metadata ← optField fields "metadata" decodeArgsMap
  pure {
    messages := messages,
    model_preferences := model_preferences,
    system_prompt := system_prompt,
    include_context := include_context,
    max_tokens := max_tokens,
    temperature := temperature,
    top_p := top_p,
    stop_sequences := stop_sequences,
    metadata := metadata }

/-- Decode `LoggingLevel` (`rename_all = "lowercase"`). -/
def decodeLoggingLevel (v : Json) : Except String LoggingLevel :=
  match v with
  | Json.str s =>
    if s = "debug" then .ok .Debug
    else if s = "info" then .ok .Info
    else if s = "notice" then .ok .Notice
    else if s = "warning" then .ok .Warning
    else if s = "error" then .ok .Error
    else if s = "critical" then .ok .Critical
    else if s = "alert" then .ok .Alert
    else if s = "emergency" then .ok .Emergency
    else .error "unknown variant of LoggingLevel"
  | _ => .error "invalid type: expected a string logging level"

/-- Decode `LoggingMessageParams` (`data` is a required raw `Value`). -/
def decodeLoggingMessageParams (v : Json) : Except String LoggingMessageParams := do
  let fields ← asObj v
  let level ← reqField fields "level" >>= decodeLoggingLevel
  let logger ← optField fields "logger" decodeString
  let data ← reqField fields "data"
  pure { level := level, logger := logger, data := data }

/-- Decode `ProgressParams`. -/
def decodeProgressParams (v : Json) : Except String ProgressParams := do
  let fields ← asObj v
  let progress_token ← reqField fields "progressToken" >>= decodeString
  let progress ← reqField fields "progress" >>= decodeF32
  let total ← optField fields "total" decodeU32
  pure { progress_token := progress_token, progress := progress, total := total }

/-- `validate_mcp_request`: method-name validation, then per-method decoding of
the raw parameters into the typed shape followed by the shape-specific check;
methods without a typed shape only require params to be an object or null. -/
def validate_mcp_request (method : String) (params : Option Json) : McpResult Unit :=
  match validate_method_name method with
  | .error e => .error e
  | .ok () =>
    match params with
    | none => .ok ()
    | some params_value =>
      if method = methods.INITIALIZE then
        match decodeInitializeParams params_value with
        | .error e => .error (.Validation ("Invalid initialize params: " ++ e))
        | .ok p => validate_initialize_params p
      else if method = methods.TOOLS_CALL then
        match decodeCallToolParams params_value with
        | .error e => .error (.Validation ("Invalid call tool params: " ++ e))
        | .ok p => validate_call_tool_params p
      else if method = methods.RESOURCES_READ then
        match decodeReadResourceParams params_value with
        | .error e => .error (.Validation ("Invalid read resource params: " ++ e))
        | .ok p => validate_read_resource_params p
      else if method = methods.PROMPTS_GET then
        match decodeGetPromptParams params_value with
        | .error e => .error (.Validation ("Invalid get prompt params: " ++ e))
        | .ok p => validate_get_prompt_params p
      else if method = methods.SAMPLING_CREATE_MESSAGE then
        match decodeCreateMessageParams params_value with
        | .error e => .error (.Validation ("Invalid create message params: " ++ e))
        | .ok p => validate_create_message_params p
      else if method = methods.PROGRESS then
        match decodeProgressParams params_value with
        | .error e => .error (.Validation ("Invalid progress params: " ++ e))
        | .ok p => validate_progress_params p
      else if method = methods.LOGGING_MESSAGE then
        match decodeLoggingMessageParams params_value with
        | .error e => .error (.Validation ("Invalid logging message params: " ++ e))
        | .ok p => validate_logging_message_params p
      else
        if !params_value.is_object && !params_value.is_null then
          .error (.Validation "Parameters must be a JSON object or null")
        else .ok ()

/-- Reduction of `validate_mcp_request` at `initialize`. -/
theorem mcpRedInitialize (w : Json) :
    validate_mcp_request methods.INITIALIZE (some w) =
      match decodeInitializeParams w with
      | .error e => .error (.Validation ("Invalid initialize params: " ++ e))
      | .ok p => validate_initialize_params p := by rfl

/-- Reduction of `validate_mcp_request` at `tools/call`. -/
theorem mcpRedToolsCall (w : Json) :
    validate_mcp_request methods.TOOLS_CALL (some w) =
      match decodeCallToolParams w with
      | .error e => .error (.Validation ("Invalid call tool params: " ++ e))
      | .ok p => validate_call_tool_params p := by rfl

/-- Reduction of `validate_mcp_request` at `resources/read`. -/
theorem mcpRedResourcesRead (w : Json) :
    validate_mcp_request methods.RESOURCES_READ (some w) =
      match decodeReadResourceParams w with
      | .error e => .error (.Validation ("Invalid read resource params: " ++ e))
      | .ok p => validate_read_resource_params p := by rfl

/-- Reduction of `validate_mcp_request` at `prompts/get`. -/
theorem mcpRedPromptsGet (w : Json) :
    validate_mcp_request methods.PROMPTS_GET (some w) =
      match decodeGetPromptParams w with
      | .error e => .error (.Validation ("Invalid get prompt params: " ++ e))
      | .ok p => validate_get_prompt_params p := by rfl

/-- Reduction of `validate_mcp_request` at `sampling/createMessage`. -/
theorem mcpRedCreateMessage (w : Json) :
    validate_mcp_request methods.SAMPLING_CREATE_MESSAGE (some w) =
      match decodeCreateMessageParams w with
      | .error e => .error (.Validation ("Invalid create message params: " ++ e))
      | .ok p => validate_create_message_params p := by rfl

/-- Reduction of `validate_mcp_request` at `progress`. -/
theorem mcpRedProgress (w : Json) :
    validate_mcp_request methods.PROGRESS (some w) =
      match decodeProgressParams w with
      | .error e => .error (.Validation ("Invalid progress params: " ++ e))
      | .ok p => validate_progress_params p := by rfl

/-- Reduction of `validate_mcp_request` at `logging/message`. -/
theorem mcpRedLoggingMessage (w : Json) :
    validate_mcp_request methods.LOGGING_MESSAGE (some w) =
      match decodeLoggingMessageParams w with
      | .error e => .error (.Validation ("Invalid logging message params: " ++ e))
      | .ok p => validate_logging_message_params p := by rfl

/-- C4: for every method with a typed parameter shape handled by
`validate_mcp_request` (initialize, tools/call, resources/read, prompts/get,
sampling/createMessage, progress, logging/message), if the supplied params
value fails to decode into that method's typed shape then
`validate_mcp_request` returns an invalid-params validation error whose
message carries a description of the decode failure, and it returns Ok when
decoding and the shape-specific checks succeed. -/
theorem C4_typed_params_decode :
    ∀ v : Json,
      ((∀ e, decodeInitializeParams v = Except.error e →
          validate_mcp_request methods.INITIALIZE (some v) =
            Except.error (McpError.Validation ("Invalid initialize params: " ++ e))) ∧
        (∀ p, decodeInitializeParams v = Except.ok p →
          validate_initialize_params p = Except.ok () →
          validate_mcp_request methods.INITIALIZE (some v) = Except.ok ())) ∧
      ((∀ e, decodeCallToolParams v = Except.error e →
          validate_mcp_request methods.TOOLS_CALL (some v) =
            Except.error (McpError.Validation ("Invalid call tool params: " ++ e))) ∧
        (∀ p, decodeCallToolParams v = Except.ok p →
          validate_call_tool_params p = Except.ok () →
          validate_mcp_request methods.TOOLS_CALL (some v) = Except.ok ())) ∧
      ((∀ e, decodeReadResourceParams v = Except.error e →
          validate_mcp_request methods.RESOURCES_READ (some v) =
            Except.error (McpError.Validation ("Invalid read resource params: " ++ e))) ∧
        (∀ p, decodeReadResourceParams v = Except.ok p →
          validate_read_resource_params p = Except.ok () →
          validate_mcp_request methods.RESOURCES_READ (some v) = Except.ok ())) ∧
      ((∀ e, decodeGetPromptParams v = Except.error e →
          validate_mcp_request methods.PROMPTS_GET (some v) =
            Except.error (McpError.Validation ("Invalid get prompt params: " ++ e))) ∧
        (∀ p, decodeGetPromptParams v = Except.ok p →
          validate_get_prompt_params p = Except.ok () →
          validate_mcp_request methods.PROMPTS_GET (some v) = Except.ok ())) ∧
      ((∀ e, decodeCreateMessageParams v = Except.error e →
          validate_mcp_request methods.SAMPLING_CREATE_MESSAGE (some v) =
            Except.error (McpError.Validation ("Invalid create message params: " ++ e))) ∧
        (∀ p, decodeCreateMessageParams v = Except.ok p →
          validate_create_message_params p = Except.ok () →
          validate_mcp_request methods.SAMPLING_CREATE_MESSAGE (some v) =
            Except.ok ())) ∧
      ((∀ e, decodeProgressParams v = Except.error e →
          validate_mcp_request methods.PROGRESS (some v) =
            Except.error (McpError.Validation ("Invalid progress params: " ++ e))) ∧
        (∀ p, decodeProgressParams v = Except.ok p →
          validate_progress_params p = Except.ok () →
          validate_mcp_request methods.PROGRESS (some v) = Except.ok ())) ∧
      ((∀ e, decodeLoggingMessageParams v = Except.error e →
          validate_mcp_request methods.LOGGING_MESSAGE (some v) =
            Except.error (McpError.Validation ("Invalid logging message params: " ++ e))) ∧
        (∀ p, decodeLoggingMessageParams v = Except.ok p →
          validate_logging_message_params p = Except.ok () →
          validate_mcp_request methods.LOGGING_MESSAGE (some v) = Except.ok ())) := by
  intro v
  refine ⟨⟨fun e he => ?_, fun p hp hv => ?_⟩, ⟨fun e he => ?_, fun p hp hv => ?_⟩,
    ⟨fun e he => ?_, fun p hp hv => ?_⟩, ⟨fun e he => ?_, fun p hp hv => ?_⟩,
    ⟨fun e he => ?_, fun p hp hv => ?_⟩, ⟨fun e he => ?_, fun p hp hv => ?_⟩,
    ⟨fun e he => ?_, fun p hp hv => ?_⟩⟩
  · rw [mcpRedInitialize v, he]
  · rw [mcpRedInitialize v, hp]
    exact hv
  · rw [mcpRedToolsCall v, he]
  · rw [mcpRedToolsCall v, hp]
    exact hv
  · rw [mcpRedResourcesRead v, he]
  · rw [mcpRedResourcesRead v, hp]
    exact hv
  · rw [mcpRedPromptsGet v, he]
  · rw [mcpRedPromptsGet v, hp]
    exact hv
  · rw [mcpRedCreateMessage v, he]
  · rw [mcpRedCreateMessage v, hp]
    exact hv
  · rw [mcpRedProgress v, he]
  · rw [mcpRedProgress v, hp]
    exact hv
  · rw [mcpRedLoggingMessage v, he]
  · rw [mcpRedLoggingMessage v, hp]
    exact hv

/-- Witness for C4 at concrete inputs: a null params value for `initialize`
fails to decode and yields the invalid-params message, while a well-formed
`resources/read` params object validates. -/
theorem C4_witness :
    validate_mcp_request methods.INITIALIZE (some Json.null) =
      Except.error (McpError.Validation
        ("Invalid initialize params: " ++ "invalid type: expected a JSON object")) ∧
    validate_mcp_request methods.RESOURCES_READ
        (some (Json.obj [("uri", Json.str "file:///tmp/a")])) = Except.ok () :=
  ⟨(C4_typed_params_decode Json.null).1.1 "invalid type: expected a JSON object" rfl,
    (C4_typed_params_decode (Json.obj [("uri", Json.str "file:///tmp/a")])).2.2.1.2
      { uri := "file:///tmp/a" } rfl rfl⟩
